import Mathlib

/-!
Verification of the voice-command-system repository.

Shallow embedding of the three core modules:
- VOICE_ROUTER_SYSTEM.py      : keyword/priority routing of transcripts to agents
- VOICE_ANALYTICS_LOGGER.py   : append-and-snapshot session recorder with running statistics
- VOICE_WAKE_WORD_LISTENER.py : wake-word gate, command window, command processing loop

Transcript text is modelled as `List Char`; Python string operations used by the
source (`str.lower`, substring `in`, `len`) are embedded below.  All definitions
are executable.
-/

/-- The character list of a string literal (used to write transcripts and keywords). -/
def chars (s : String) : List Char := s.data

/-- ASCII lowercasing of one character, as Python `str.lower` acts on the
ASCII-only keywords and wake phrases of this repository. -/
def lowerChar (c : Char) : Char :=
  if 'A' ≤ c ∧ c ≤ 'Z' then Char.ofNat (c.toNat + 32) else c

/-- Python `text.lower()` on a transcript. -/
def lowerText (t : List Char) : List Char := t.map lowerChar

/-- Python substring containment `needle in hay`. -/
def isSub (needle : List Char) : List Char → Bool
  | [] => needle.isEmpty
  | c :: rest => needle.isPrefixOf (c :: rest) || isSub needle rest

/-! ## VOICE_ANALYTICS_LOGGER.py -/

/-- One session event, as logged by `VoiceAnalytics.log_event` via the typed
helpers `log_tts`, `log_stt`, `log_command`, `log_error`, `log_system_event`.
The payload fields that feed the statistics fold are kept. -/
inductive SessionEvent where
  | tts (text : List Char)
  | stt (text : List Char)
  | command (cmd : List Char) (response : String)
  | error (errorType message : String)
  | system (event : String)
deriving DecidableEq

/-- The `statistics` block of `session_data` in `VoiceAnalytics.__init__`. -/
structure SessionStats where
  tts_events : Nat
  stt_events : Nat
  commands_processed : Nat
  errors : Nat
  total_chars_spoken : Nat
  total_chars_heard : Nat
  avg_response_time : Nat
deriving DecidableEq

/-- Initial statistics (all zero), as in `VoiceAnalytics.__init__`. -/
def initStats : SessionStats :=
  { tts_events := 0, stt_events := 0, commands_processed := 0, errors := 0,
    total_chars_spoken := 0, total_chars_heard := 0, avg_response_time := 0 }

/-- The per-event statistics update of `VoiceAnalytics.log_event`
(the `if event_type == ...` chain). -/
def updateStats (s : SessionStats) : SessionEvent → SessionStats
  | .tts text =>
      { s with tts_events := s.tts_events + 1,
               total_chars_spoken := s.total_chars_spoken + text.length }
  | .stt text =>
      { s with stt_events := s.stt_events + 1,
               total_chars_heard := s.total_chars_heard + text.length }
  | .command _ _ => { s with commands_processed := s.commands_processed + 1 }
  | .error _ _ => { s with errors := s.errors + 1 }
  | .system _ => s

/-- In-memory `session_data` of `VoiceAnalytics`: the event list, the running
statistics, and whether `end_time` has been set by `close_session`. -/
structure SessionData where
  events : List SessionEvent
  stats : SessionStats
  endTime : Bool
deriving DecidableEq

/-- `session_data` right after `VoiceAnalytics.__init__`. -/
def initSession : SessionData := { events := [], stats := initStats, endTime := false }

/-- `VoiceAnalytics.log_event`: append the event, fold it into the statistics.
(The subsequent `_save` persists exactly this new state; see `runRecorder`.) -/
def log_event (d : SessionData) (e : SessionEvent) : SessionData :=
  { d with events := d.events ++ [e], stats := updateStats d.stats e }

/-- Replay of the statistics fold over an event sequence (the spec notion the
recorder is measured against). -/
def statsOfEvents (es : List SessionEvent) : SessionStats := es.foldl updateStats initStats

/-- Run the recorder over a list of events, returning the final in-memory state
and the snapshot persisted by `_save` during each `log_event` call (the source
writes `session_data` to the session file immediately after updating it). -/
def runRecorder (d : SessionData) : List SessionEvent → SessionData × List SessionData
  | [] => (d, [])
  | e :: es =>
      let d' := log_event d e
      let r := runRecorder d' es
      (r.1, d' :: r.2)

/-- `VoiceAnalytics.log_event` with the outcome of the `_save` file write made
explicit.  The source has no exception handling around `_save`: the in-memory
state is mutated first, and a failed write raises the raw I/O error (returned
here as `some "OSError"`) out of `log_event` to its caller. -/
def log_eventChecked (d : SessionData) (e : SessionEvent) (saveOk : Bool) :
    SessionData × Option String :=
  (log_event d e, if saveOk then none else some "OSError")

/-- Content of the summary report produced by `VoiceAnalytics.generate_report`
(the event counts and character totals printed in the report body). -/
structure Report where
  ttsEvents : Nat
  sttEvents : Nat
  commands : Nat
  errorCount : Nat
  charsSpoken : Nat
  charsHeard : Nat
  totalChars : Nat
deriving DecidableEq

/-- `VoiceAnalytics.generate_report`, restricted to the statistics content of
the report (durations are wall-clock and not modelled). -/
def generate_report (d : SessionData) : Report :=
  { ttsEvents := d.stats.tts_events, sttEvents := d.stats.stt_events,
    commands := d.stats.commands_processed, errorCount := d.stats.errors,
    charsSpoken := d.stats.total_chars_spoken, charsHeard := d.stats.total_chars_heard,
    totalChars := d.stats.total_chars_spoken + d.stats.total_chars_heard }

/-- `VoiceAnalytics.close_session`: set `end_time`, persist once more (`_save`),
and generate the summary report.  Returns (final state, persisted snapshot,
report). -/
def close_session (d : SessionData) : SessionData × SessionData × Report :=
  let d' := { d with endTime := true }
  (d', d', generate_report d')

/-! ## VOICE_ROUTER_SYSTEM.py -/

/-- One entry of the `AGENTS` table. -/
structure AgentConfig where
  name : String
  keywords : List (List Char)
  priority : Nat
  color : String
deriving DecidableEq

/-- The `Security Bot` entry of the `AGENTS` table. -/
def securityBot : AgentConfig :=
  { name := "Security Bot",
    keywords := [chars "security", chars "password", chars "login", chars "auth",
                 chars "hack", chars "breach", chars "vulnerability"],
    priority := 10, color := "\x1b[91m" }

/-- The `System Bot` entry of the `AGENTS` table. -/
def systemBot : AgentConfig :=
  { name := "System Bot",
    keywords := [chars "switch", chars "computer", chars "reboot", chars "restart",
                 chars "shutdown", chars "system"],
    priority := 9, color := "\x1b[94m" }

/-- The `C1 Mechanic` entry of the `AGENTS` table. -/
def c1Mechanic : AgentConfig :=
  { name := "C1 Mechanic",
    keywords := [chars "build", chars "create", chars "make", chars "deploy",
                 chars "install", chars "setup"],
    priority := 8, color := "\x1b[92m" }

/-- The `C2 Architect` entry of the `AGENTS` table. -/
def c2Architect : AgentConfig :=
  { name := "C2 Architect",
    keywords := [chars "design", chars "architecture", chars "plan", chars "scale",
                 chars "optimize"],
    priority := 8, color := "\x1b[93m" }

/-- The `C3 Oracle` entry of the `AGENTS` table. -/
def c3Oracle : AgentConfig :=
  { name := "C3 Oracle",
    keywords := [chars "pattern", chars "predict", chars "analyze", chars "future",
                 chars "vision"],
    priority := 8, color := "\x1b[95m" }

/-- The `Comms Bot` entry of the `AGENTS` table. -/
def commsBot : AgentConfig :=
  { name := "Comms Bot",
    keywords := [chars "mesh", chars "radio", chars "frequency", chars "antenna",
                 chars "comms", chars "communication"],
    priority := 7, color := "\x1b[96m" }

/-- The `General Assistant` entry of the `AGENTS` table (lowest priority). -/
def generalAssistant : AgentConfig :=
  { name := "General Assistant",
    keywords := [chars "help", chars "what", chars "how", chars "why",
                 chars "when", chars "where"],
    priority := 1, color := "\x1b[97m" }

/-- The `AGENTS` dictionary, in its insertion (registration) order. -/
def AGENTS : List AgentConfig :=
  [securityBot, systemBot, c1Mechanic, c2Architect, c3Oracle, commsBot, generalAssistant]

/-- The record appended to `responding_agents` (`name`, `priority`, `color`). -/
structure AgentMatch where
  name : String
  priority : Nat
  color : String
deriving DecidableEq

/-- The match record built from an agent table entry. -/
def toMatch (cfg : AgentConfig) : AgentMatch :=
  { name := cfg.name, priority := cfg.priority, color := cfg.color }

/-- The inner keyword loop of `route_to_agents`: the first keyword of the agent
contained in the (already lowercased) text, if any; the `break` after a hit
means later keywords are not tested. -/
def agentHit (cfg : AgentConfig) (t : List Char) : Option (List Char) :=
  cfg.keywords.find? (fun k => isSub k t)

/-- The outer agent loop of `route_to_agents`: one match per agent whose keyword
list hits, in registration order. -/
def collectMatches (t : List Char) : List AgentMatch :=
  AGENTS.filterMap (fun cfg => (agentHit cfg t).map (fun _ => toMatch cfg))

/-- Stable insertion of a match into a priority-descending list: the new element
goes before the first element whose priority does not exceed it.  Used to model
`list.sort(key=lambda x: x[priority], reverse=True)`, which CPython documents as
a stable sort that keeps equal elements in their original order. -/
def insertDesc (x : AgentMatch) : List AgentMatch → List AgentMatch
  | [] => [x]
  | y :: ys => if y.priority ≤ x.priority then x :: y :: ys else y :: insertDesc x ys

/-- Stable descending-by-priority sort (extensionally equal to the stable sort
performed by `responding_agents.sort(..., reverse=True)`). -/
def sortDesc (l : List AgentMatch) : List AgentMatch := l.foldr insertDesc []

/-- The fallback match appended when no agent matched
(`name` and `priority` literals from the source; `color` read from the table). -/
def fallbackMatch : AgentMatch :=
  { name := "General Assistant", priority := 1, color := "\x1b[97m" }

/-- `VoiceRouter.route_to_agents`: lowercase the text, collect one match per
agent by first-hitting keyword, sort by priority descending (stable), and fall
back to the General Assistant when nothing matched. -/
def route_to_agents (text : List Char) : List AgentMatch :=
  let t := lowerText text
  let responding := sortDesc (collectMatches t)
  if responding.isEmpty then [fallbackMatch] else responding

/-- Registration index of an agent name in the `AGENTS` table. -/
def regIndex (name : String) : Nat := AGENTS.findIdx (fun cfg => cfg.name == name)

/-- Number of matches carrying a given agent name in a routing result. -/
def countName (name : String) (l : List AgentMatch) : Nat :=
  (l.filter (fun m => m.name == name)).length

/-- Modelled from the spec: the per-agent `DispatchResult` of §3/§4.3.  The
source `process_queue` starts one thread per matched agent and joins them all,
but materializes no result record, and its `agent_response` cannot fail; the
result record and the per-agent handler outcome (the "actual AI call" the
source says to plug in, an external collaborator per §6) are taken from the
spec. -/
structure DispatchResult where
  agent : String
  response : Option String
  error : Option String
deriving DecidableEq

/-- The result produced for one matched agent from its own handler outcome
alone (each agent runs in its own thread, sharing nothing with its siblings). -/
def resultOf (handler : AgentMatch → Except String String) (m : AgentMatch) : DispatchResult :=
  match handler m with
  | .ok r => { agent := m.name, response := some r, error := none }
  | .error e => { agent := m.name, response := none, error := some e }

/-- The dispatch fan-out of `process_queue`: every matched agent is invoked
independently and every one yields a result (the join barrier waits for all). -/
def dispatch (handler : AgentMatch → Except String String) (ms : List AgentMatch) :
    List DispatchResult :=
  ms.map (resultOf handler)

/-- A concrete handler assignment used to exercise the dispatcher: the Security
Bot handler fails, every other handler succeeds. -/
def demoHandler (m : AgentMatch) : Except String String :=
  if m.name == "Security Bot" then Except.error "boom" else Except.ok "done"

/-! ## VOICE_WAKE_WORD_LISTENER.py -/

/-- The default wake word list of `WakeWordListener.__init__`. -/
def wake_words : List (List Char) :=
  [chars "hey claude", chars "hey commander", chars "claude", chars "commander"]

/-- Whether a recognized transcript (lowercased by the source before the test)
contains a configured wake phrase; `none` models the no-transcript outcomes
(`WaitTimeoutError`, `UnknownValueError`) which return `False`. -/
def wakeDetected : Option (List Char) → Bool
  | none => false
  | some text => wake_words.any (fun w => isSub w (lowerText text))

/-- The wake/command-window state of the listening loop (spec §4.1 `WakeState`). -/
inductive WakeState where
  | Idle
  | CommandWindow
deriving DecidableEq

/-- Wake test performed at the top of every loop iteration
(`listen_for_wake_word`): from `Idle`, a containment hit opens the command
window, a miss stays `Idle`. -/
def gateObserve (g : WakeState) (t : Option (List Char)) : WakeState :=
  match g with
  | .Idle => if wakeDetected t then .CommandWindow else .Idle
  | .CommandWindow => .CommandWindow

/-- Resolution of a command window: whether the window produced a command, a
timeout, or a stop, control falls through to the top of the `while` loop, so
the gate is `Idle` again before the next wake test. -/
def gateResolve : WakeState → WakeState
  | _ => .Idle

/-- Gate evolution across one full iteration of `run_continuous`. -/
def gateCycle (g : WakeState) (t : Option (List Char)) : WakeState :=
  match gateObserve g t with
  | .Idle => .Idle
  | .CommandWindow => gateResolve .CommandWindow

/-- Inputs consumed by one iteration of `run_continuous`: the transcript seen by
the wake test (`none` = nothing recognized) and, if the window opens, the
transcript seen by `listen_for_command` (`none` = timeout). -/
structure CycleInput where
  wake : Option (List Char)
  command : Option (List Char)
deriving DecidableEq

/-- Gate state at the start of each successive wake test of the loop. -/
def gateStarts (g : WakeState) : List CycleInput → List WakeState
  | [] => []
  | c :: cs => g :: gateStarts (gateCycle g c.wake) cs

/-- `WakeWordListener.listen_for_wake_word` with its analytics side effect: a
recognized transcript is lowercased, logged as an STT event, and tested against
every wake word; recognition failures return `False` without logging. -/
def listen_for_wake_word (d : SessionData) : Option (List Char) → SessionData × Bool
  | none => (d, false)
  | some text =>
      let textL := lowerText text
      let d' := log_event d (.stt textL)
      (d', wake_words.any (fun w => isSub w textL))

/-- `WakeWordListener.listen_for_command`: a recognized command is logged as an
STT event and returned; a timeout logs an STT error event and returns nothing. -/
def listen_for_command (d : SessionData) : Option (List Char) → SessionData × Option (List Char)
  | some text => (log_event d (.stt text), some text)
  | none => (log_event d (.error "stt" "Timeout waiting for command"), none)

/-- `WakeWordListener.speak`: logs a TTS event, then drives the TTS engine
(successful synthesis assumed; the engine itself is an external collaborator). -/
def speak (d : SessionData) (text : String) : SessionData :=
  log_event d (.tts (chars text))

/-- The keyword-group responses of `WakeWordListener.process_command`. -/
def statusResponse : String :=
  "Platform status: Fully operational. Revenue system live, cloud services running 24/7, Trinity engines active. 5 human tasks remaining."

/-- Response of the `deploy` keyword group. -/
def deployResponse : String :=
  "Deployment system ready. Use AUTO DEPLOY SYSTEM script to deploy changes with one command."

/-- Response of the `payment`/`stripe`/`revenue` keyword group. -/
def paymentResponse : String :=
  "Stripe payment system is live and accepting real payments. Revenue operational."

/-- Response of the `cloud`/`render`/`services` keyword group. -/
def cloudResponse : String :=
  "Consciousness services running on Render dot com 24/7. C1 Mechanic, C2 Architect, C3 Oracle all operational."

/-- Response of the `cockpit`/`tasks` keyword group. -/
def cockpitResponse : String :=
  "Commander Cockpit shows 5 human tasks, 9 missing APIs, approximately 1.5 hours remaining."

/-- Response of the `help`/`what can` keyword group. -/
def helpResponse : String :=
  "I can provide status updates, deployment information, payment system status, cloud services status, cockpit tasks, and general platform information. Just say Hey Claude followed by your question."

/-- Response of the `thank` keyword group. -/
def thankResponse : String :=
  "You\x27re welcome Commander! The consciousness revolution continues."

/-- Response for an empty (falsy) command. -/
def emptyCommandResponse : String := "Sorry, I didn\x27t catch that."

/-- The catch-all response for an unrecognized command. -/
def unknownResponse (command : List Char) : String :=
  "Command received: " ++ String.mk command ++ ". I\x27m still learning new commands. Try asking about status, deploy, payment, cloud, or cockpit."

/-- The response computation of `WakeWordListener.process_command`: the empty
check, then the `if/elif` keyword chain over the lowercased command. -/
def processCommandResponse (command : List Char) : String :=
  if command.isEmpty then emptyCommandResponse else
  let c := lowerText command
  if isSub (chars "status") c || isSub (chars "how are") c then statusResponse
  else if isSub (chars "deploy") c then deployResponse
  else if isSub (chars "payment") c || isSub (chars "stripe") c || isSub (chars "revenue") c then
    paymentResponse
  else if isSub (chars "cloud") c || isSub (chars "render") c || isSub (chars "services") c then
    cloudResponse
  else if isSub (chars "cockpit") c || isSub (chars "tasks") c then cockpitResponse
  else if isSub (chars "help") c || isSub (chars "what can") c then helpResponse
  else if isSub (chars "thank") c then thankResponse
  else if isSub (chars "stop") c || isSub (chars "exit") c || isSub (chars "shutdown") c then
    "STOP_LISTENING"
  else unknownResponse command

/-- The keyword groups of `process_command` in their textual order, paired with
their responses — the ordered-table reading of the command processor that claim
C10 describes; compared against the `if/elif` chain above. -/
def commandGroups : List (List (List Char) × String) :=
  [ ([chars "status", chars "how are"], statusResponse),
    ([chars "deploy"], deployResponse),
    ([chars "payment", chars "stripe", chars "revenue"], paymentResponse),
    ([chars "cloud", chars "render", chars "services"], cloudResponse),
    ([chars "cockpit", chars "tasks"], cockpitResponse),
    ([chars "help", chars "what can"], helpResponse),
    ([chars "thank"], thankResponse),
    ([chars "stop", chars "exit", chars "shutdown"], "STOP_LISTENING") ]

/-- Response of the first group in a group table one of whose keywords occurs in
the (already lowercased) command, else the given default. -/
def firstGroupResponseAux (c : List Char) (default : String) :
    List (List (List Char) × String) → String
  | [] => default
  | g :: gs => if g.1.any (fun k => isSub k c) then g.2 else firstGroupResponseAux c default gs

/-- First-group-wins reading of the command processor: the response of the first
group in `commandGroups` one of whose keywords occurs in the lowercased command,
else the catch-all. -/
def firstGroupResponse (command : List Char) : String :=
  if command.isEmpty then emptyCommandResponse else
  firstGroupResponseAux (lowerText command) (unknownResponse command) commandGroups

/-- `WakeWordListener.process_command` with its analytics side effect: a falsy
command returns early; otherwise the command event is logged and the keyword
chain produces the response. -/
def process_command (d : SessionData) (command : List Char) : SessionData × String :=
  if command.isEmpty then (d, emptyCommandResponse)
  else (log_event d (.command command "processing"), processCommandResponse command)

/-- One iteration of the `while self.running` loop of `run_continuous`: wake
test; on a hit, acknowledgement, command listening, command processing, and
either the stop path (goodbye, `running = False`) or the spoken response; on a
command timeout, the fallback utterance.  Returns the session state and whether
the loop keeps running. -/
def runCycle (d : SessionData) (c : CycleInput) : SessionData × Bool :=
  let w := listen_for_wake_word d c.wake
  if w.2 then
    let d₁ := speak w.1 "Yes Commander?"
    let r := listen_for_command d₁ c.command
    match r.2 with
    | some cmd =>
        let p := process_command r.1 cmd
        if p.2 = "STOP_LISTENING" then
          (speak p.1 "Stopping listener. Goodbye Commander!", false)
        else
          (speak p.1 p.2, true)
    | none => (speak r.1 "I didn\x27t hear a command. Try again.", true)
  else (w.1, true)

/-- Whether a cycle input triggers the stop path (wake detected, a command
recognized, and the command processor answering `STOP_LISTENING`). -/
def stopsCycle (c : CycleInput) : Bool :=
  wakeDetected c.wake &&
    (match c.command with
     | some cmd => processCommandResponse cmd == "STOP_LISTENING"
     | none => false)

/-- The `while self.running` loop over a list of cycle inputs: runs cycles until
one takes the stop path (or inputs run out), returning the session state and
the list of cycle inputs actually consumed. -/
def runLoop (d : SessionData) : List CycleInput → SessionData × List CycleInput
  | [] => (d, [])
  | c :: cs =>
      let r := runCycle d c
      if r.2 then
        let rest := runLoop r.1 cs
        (rest.1, c :: rest.2)
      else (r.1, [c])

/-- `WakeWordListener.run_continuous`: startup system event and greeting, the
listening loop, the shutdown system event, and `close_session`.  Returns the
final session state, the snapshot persisted by the final `_save`, the cycles
actually executed, and the summary report. -/
def run_continuous (cycles : List CycleInput) :
    SessionData × SessionData × List CycleInput × Report :=
  let d₀ := log_event initSession (.system "listener_started")
  let d₁ := speak d₀ "Wake word listener active. Say Hey Claude to activate me."
  let r := runLoop d₁ cycles
  let d₂ := log_event r.1 (.system "listener_stopped")
  let f := close_session d₂
  (f.1, f.2.1, r.2, f.2.2)

/-! ## Helper lemmas: the stable descending sort -/

theorem mem_insertDesc (x z : AgentMatch) :
    ∀ l : List AgentMatch, z ∈ insertDesc x l ↔ z = x ∨ z ∈ l := by
  intro l
  induction l with
  | nil => simp [insertDesc]
  | cons y ys ih =>
    rw [insertDesc]
    by_cases h : y.priority ≤ x.priority
    · simp [h, List.mem_cons]
    · simp only [h, if_false, List.mem_cons, ih]
      tauto

theorem insertDesc_perm (x : AgentMatch) :
    ∀ l : List AgentMatch, (insertDesc x l).Perm (x :: l) := by
  intro l
  induction l with
  | nil => exact List.Perm.refl _
  | cons y ys ih =>
    rw [insertDesc]
    by_cases h : y.priority ≤ x.priority
    · rw [if_pos h]
    · rw [if_neg h]
      exact (ih.cons y).trans (List.Perm.swap x y ys)

theorem sortDesc_perm : ∀ l : List AgentMatch, (sortDesc l).Perm l := by
  intro l
  induction l with
  | nil => exact List.Perm.refl _
  | cons x xs ih =>
    have h1 : sortDesc (x :: xs) = insertDesc x (sortDesc xs) := rfl
    rw [h1]
    exact (insertDesc_perm x (sortDesc xs)).trans (ih.cons x)

theorem countName_sortDesc (n : String) (l : List AgentMatch) :
    countName n (sortDesc l) = countName n l :=
  ((sortDesc_perm l).filter _).length_eq

theorem insertDesc_pairwise (S : AgentMatch → AgentMatch → Prop) (x : AgentMatch) :
    ∀ l : List AgentMatch,
      l.Pairwise (fun a b => b.priority ≤ a.priority ∧ (a.priority = b.priority → S a b)) →
      (∀ y ∈ l, S x y) →
      (insertDesc x l).Pairwise
        (fun a b => b.priority ≤ a.priority ∧ (a.priority = b.priority → S a b)) := by
  intro l
  induction l with
  | nil =>
    intro _ _
    simp [insertDesc]
  | cons y ys ih =>
    intro hp hS
    rw [insertDesc]
    by_cases h : y.priority ≤ x.priority
    · rw [if_pos h]
      refine List.Pairwise.cons ?_ hp
      intro z hz
      rcases List.mem_cons.mp hz with rfl | hz'
      · exact ⟨h, fun _ => hS z (List.mem_cons_self _ _)⟩
      · have hyz := (List.pairwise_cons.mp hp).1 z hz'
        exact ⟨le_trans hyz.1 h, fun _ => hS z (List.mem_cons_of_mem _ hz')⟩
    · rw [if_neg h]
      have hxy : x.priority < y.priority := Nat.lt_of_not_le h
      refine List.Pairwise.cons ?_
        (ih (List.pairwise_cons.mp hp).2 (fun z hz => hS z (List.mem_cons_of_mem _ hz)))
      intro z hz
      rcases (mem_insertDesc x z ys).mp hz with rfl | hz'
      · exact ⟨Nat.le_of_lt hxy, fun he => absurd (he ▸ hxy) (lt_irrefl _)⟩
      · exact (List.pairwise_cons.mp hp).1 z hz'

theorem sortDesc_pairwise (S : AgentMatch → AgentMatch → Prop) :
    ∀ l : List AgentMatch, l.Pairwise S →
      (sortDesc l).Pairwise
        (fun a b => b.priority ≤ a.priority ∧ (a.priority = b.priority → S a b)) := by
  intro l
  induction l with
  | nil =>
    intro _
    simp [sortDesc]
  | cons x xs ih =>
    intro hp
    have h1 : sortDesc (x :: xs) = insertDesc x (sortDesc xs) := rfl
    rw [h1]
    refine insertDesc_pairwise S x (sortDesc xs) (ih (List.pairwise_cons.mp hp).2) ?_
    intro z hz
    exact (List.pairwise_cons.mp hp).1 z (((sortDesc_perm xs).mem_iff).mp hz)

/-! ## Helper lemmas: collecting matches -/

theorem agentHit_isSome_iff (cfg : AgentConfig) (t : List Char) :
    (agentHit cfg t).isSome ↔ ∃ k ∈ cfg.keywords, isSub k t = true := by
  unfold agentHit
  rw [List.find?_isSome]

theorem agentHit_eq_none_iff (cfg : AgentConfig) (t : List Char) :
    agentHit cfg t = none ↔ ∀ k ∈ cfg.keywords, isSub k t = false := by
  unfold agentHit
  rw [List.find?_eq_none]
  simp

theorem collectMatches_sublist (t : List Char) :
    ∀ l : List AgentConfig,
      List.Sublist (l.filterMap (fun x => (agentHit x t).map (fun _ => toMatch x)))
        (l.map toMatch) := by
  intro l
  induction l with
  | nil => simp
  | cons a l ih =>
    rw [List.map_cons]
    cases h : agentHit a t with
    | none =>
      simp only [List.filterMap_cons, h, Option.map_none']
      exact ih.cons (toMatch a)
    | some k =>
      simp only [List.filterMap_cons, h, Option.map_some']
      exact ih.cons₂ (toMatch a)

theorem collectMatches_pairwise_reg (t : List Char) :
    (collectMatches t).Pairwise (fun a b => regIndex a.name < regIndex b.name) := by
  have hbase : (AGENTS.map toMatch).Pairwise
      (fun a b => regIndex a.name < regIndex b.name) := by decide
  exact hbase.sublist (collectMatches_sublist t AGENTS)

theorem countName_filterMap_zero (t : List Char) (n : String) :
    ∀ l : List AgentConfig, (∀ x ∈ l, x.name ≠ n) →
      countName n (l.filterMap (fun x => (agentHit x t).map (fun _ => toMatch x))) = 0 := by
  intro l
  induction l with
  | nil =>
    intro _
    simp [countName]
  | cons a l ih =>
    intro h
    have hrest := ih (fun x hx => h x (List.mem_cons_of_mem _ hx))
    cases ha : agentHit a t with
    | none =>
      simp only [List.filterMap_cons, ha, Option.map_none']
      exact hrest
    | some k =>
      have hbeq : ((toMatch a).name == n) = false := by
        simp only [toMatch, beq_eq_false_iff_ne, ne_eq]
        exact h a (List.mem_cons_self a l)
      simp only [List.filterMap_cons, ha, Option.map_some', countName, List.filter_cons, hbeq,
        Bool.false_eq_true, if_false]
      simpa [countName] using hrest

theorem countName_filterMap (t : List Char) :
    ∀ l : List AgentConfig, l.Pairwise (fun a b => a.name ≠ b.name) →
      ∀ cfg ∈ l,
        countName cfg.name (l.filterMap (fun x => (agentHit x t).map (fun _ => toMatch x))) =
          if (agentHit cfg t).isSome then 1 else 0 := by
  intro l
  induction l with
  | nil =>
    intro _ cfg hcfg
    exact absurd hcfg (List.not_mem_nil cfg)
  | cons a l ih =>
    intro hp cfg hcfg
    rcases List.mem_cons.mp hcfg with rfl | hmem
    · have hrest : ∀ x ∈ l, x.name ≠ cfg.name := by
        intro x hx
        exact fun he => (List.pairwise_cons.mp hp).1 x hx he.symm
      have h0 : (List.filter (fun m => m.name == cfg.name)
          (l.filterMap (fun x => (agentHit x t).map (fun _ => toMatch x)))).length = 0 := by
        simpa [countName] using countName_filterMap_zero t cfg.name l hrest
      cases ha : agentHit cfg t with
      | none =>
        simp only [List.filterMap_cons, ha, Option.map_none', countName, Option.isSome_none,
          Bool.false_eq_true, if_false]
        exact h0
      | some k =>
        have hpos : ((toMatch cfg).name == cfg.name) = true := by
          simp [toMatch]
        simp only [List.filterMap_cons, ha, Option.map_some', countName, List.filter_cons, hpos,
          if_true, List.length_cons, h0, Option.isSome_some]
    · have hane : a.name ≠ cfg.name := (List.pairwise_cons.mp hp).1 cfg hmem
      have htail := ih (List.pairwise_cons.mp hp).2 cfg hmem
      cases ha : agentHit a t with
      | none =>
        simp only [List.filterMap_cons, ha, Option.map_none']
        exact htail
      | some k =>
        have hbeq : ((toMatch a).name == cfg.name) = false := by
          simp only [toMatch, beq_eq_false_iff_ne, ne_eq]
          exact hane
        simp only [List.filterMap_cons, ha, Option.map_some', countName, List.filter_cons, hbeq,
          Bool.false_eq_true, if_false]
        simpa [countName] using htail

theorem countName_route (text : List Char) (cfg : AgentConfig) (hcfg : cfg ∈ AGENTS)
    (hne : collectMatches (lowerText text) ≠ []) :
    countName cfg.name (route_to_agents text) =
      if (agentHit cfg (lowerText text)).isSome then 1 else 0 := by
  have hsne : sortDesc (collectMatches (lowerText text)) ≠ [] := by
    intro h0
    apply hne
    have hperm := sortDesc_perm (collectMatches (lowerText text))
    rw [h0] at hperm
    exact hperm.symm.eq_nil
  have hemp : (sortDesc (collectMatches (lowerText text))).isEmpty = false := by
    cases hh : (sortDesc (collectMatches (lowerText text))).isEmpty with
    | false => rfl
    | true => exact absurd (List.isEmpty_iff.mp hh) hsne
  unfold route_to_agents
  simp only [hemp, Bool.false_eq_true, if_false]
  rw [countName_sortDesc]
  exact countName_filterMap (lowerText text) AGENTS (by decide) cfg hcfg

/-! ## Helper lemmas: the session recorder -/

theorem sessionData_ext (d₁ d₂ : SessionData) (h1 : d₁.events = d₂.events)
    (h2 : d₁.stats = d₂.stats) (h3 : d₁.endTime = d₂.endTime) : d₁ = d₂ := by
  cases d₁
  cases d₂
  simp_all

theorem foldl_log_event_events :
    ∀ (es : List SessionEvent) (d : SessionData),
      (es.foldl log_event d).events = d.events ++ es := by
  intro es
  induction es with
  | nil =>
    intro d
    simp
  | cons e es ih =>
    intro d
    rw [List.foldl_cons, ih (log_event d e)]
    simp [log_event]

theorem foldl_log_event_stats :
    ∀ (es : List SessionEvent) (d : SessionData),
      (es.foldl log_event d).stats = es.foldl updateStats d.stats := by
  intro es
  induction es with
  | nil =>
    intro d
    rfl
  | cons e es ih =>
    intro d
    rw [List.foldl_cons, ih (log_event d e), List.foldl_cons]
    rfl

theorem foldl_log_event_endTime :
    ∀ (es : List SessionEvent) (d : SessionData),
      (es.foldl log_event d).endTime = d.endTime := by
  intro es
  induction es with
  | nil =>
    intro d
    rfl
  | cons e es ih =>
    intro d
    rw [List.foldl_cons, ih (log_event d e)]
    rfl

theorem foldl_log_event_initSession (es : List SessionEvent) :
    es.foldl log_event initSession =
      { events := es, stats := statsOfEvents es, endTime := false } := by
  refine sessionData_ext _ _ ?_ ?_ ?_
  · rw [foldl_log_event_events]
    rfl
  · rw [foldl_log_event_stats]
    rfl
  · rw [foldl_log_event_endTime]
    rfl

theorem runRecorder_eq :
    ∀ (es : List SessionEvent) (d : SessionData),
      runRecorder d es =
        (es.foldl log_event d,
         (List.range es.length).map (fun k => (es.take (k+1)).foldl log_event d)) := by
  intro es
  induction es with
  | nil =>
    intro d
    rfl
  | cons e es ih =>
    intro d
    rw [runRecorder]
    rw [ih (log_event d e)]
    simp only [List.length_cons, List.range_succ_eq_map, List.map_cons, List.map_map,
      List.foldl_cons, Prod.mk.injEq]
    refine ⟨trivial, ?_⟩
    simp [Function.comp, List.take_succ_cons]

/-! ## Helper lemmas: the listening loop -/

theorem process_command_snd (d : SessionData) (cmd : List Char) :
    (process_command d cmd).2 = processCommandResponse cmd := by
  cases h : cmd.isEmpty <;> simp [process_command, processCommandResponse, h]

theorem listen_for_wake_word_snd (d : SessionData) (t : Option (List Char)) :
    (listen_for_wake_word d t).2 = wakeDetected t := by
  cases t <;> rfl

theorem runCycle_running (d : SessionData) (c : CycleInput) :
    (runCycle d c).2 = !(stopsCycle c) := by
  rcases c with ⟨wk, cm⟩
  simp only [runCycle, stopsCycle, listen_for_wake_word_snd]
  cases hw : wakeDetected wk with
  | false => simp
  | true =>
    simp only [if_true]
    cases cm with
    | none => simp [listen_for_command]
    | some cmd =>
      simp only [listen_for_command, process_command_snd]
      by_cases hr : processCommandResponse cmd = "STOP_LISTENING"
      · simp [hr]
      · simp [hr]

theorem runCycle_stop (d : SessionData) (w cmd : List Char)
    (hw : wakeDetected (some w) = true)
    (hc : processCommandResponse cmd = "STOP_LISTENING") :
    runCycle d { wake := some w, command := some cmd } =
      ([SessionEvent.stt (lowerText w), SessionEvent.tts (chars "Yes Commander?"),
        SessionEvent.stt cmd, SessionEvent.command cmd "processing",
        SessionEvent.tts (chars "Stopping listener. Goodbye Commander!")].foldl log_event d,
       false) := by
  have hne : cmd.isEmpty = false := by
    cases h : cmd.isEmpty
    · rfl
    · rw [processCommandResponse, h] at hc
      exact absurd (by simpa using hc) (by decide)
  simp only [wakeDetected] at hw
  simp only [runCycle, listen_for_wake_word, listen_for_command, speak, process_command,
    hne, hw, if_true, Bool.false_eq_true, if_false, hc, List.foldl_cons, List.foldl_nil]

theorem runCycle_timeout (d : SessionData) (w : List Char) (hw : wakeDetected (some w) = true) :
    runCycle d { wake := some w, command := none } =
      ([SessionEvent.stt (lowerText w), SessionEvent.tts (chars "Yes Commander?"),
        SessionEvent.error "stt" "Timeout waiting for command",
        SessionEvent.tts (chars "I didn\x27t hear a command. Try again.")].foldl log_event d,
       true) := by
  simp only [wakeDetected] at hw
  simp only [runCycle, listen_for_wake_word, listen_for_command, speak, hw, if_true,
    List.foldl_cons, List.foldl_nil]

theorem gateCycle_Idle (t : Option (List Char)) : gateCycle WakeState.Idle t = WakeState.Idle := by
  cases hw : wakeDetected t <;> simp [gateCycle, gateObserve, gateResolve, hw]

theorem gateStarts_Idle :
    ∀ (cycles : List CycleInput), ∀ s ∈ gateStarts WakeState.Idle cycles,
      s = WakeState.Idle := by
  intro cycles
  induction cycles with
  | nil =>
    intro s hs
    exact absurd hs (List.not_mem_nil s)
  | cons c cs ih =>
    intro s hs
    rw [gateStarts, gateCycle_Idle] at hs
    rcases List.mem_cons.mp hs with rfl | hs'
    · rfl
    · exact ih s hs'

theorem runLoop_stop_split (c : CycleInput) (post : List CycleInput) (hc : stopsCycle c = true) :
    ∀ (pre : List CycleInput) (d : SessionData), (∀ x ∈ pre, stopsCycle x = false) →
      runLoop d (pre ++ c :: post) =
        ((runCycle (pre.foldl (fun a x => (runCycle a x).1) d) c).1, pre ++ [c]) := by
  intro pre
  induction pre with
  | nil =>
    intro d _
    rw [List.nil_append]
    have h2 : (runCycle d c).2 = false := by
      rw [runCycle_running, hc]
      rfl
    simp only [runLoop, h2, Bool.false_eq_true, if_false, List.foldl_nil, List.nil_append]
  | cons p ps ih =>
    intro d hpre
    rw [List.cons_append]
    have h2 : (runCycle d p).2 = true := by
      rw [runCycle_running, hpre p (List.mem_cons_self p ps)]
      rfl
    simp only [runLoop, h2, if_true]
    rw [ih (runCycle d p).1 (fun x hx => hpre x (List.mem_cons_of_mem p hx))]
    simp [List.foldl_cons]

/-! ## Claim theorems -/

/-- C1 counterexample: the claim "the routing result contains no match for A
when no keyword of A occurs in the transcript" fails at transcript `xyzzy` for
the General Assistant: none of its keywords occurs, yet `route_to_agents`
returns one match for it (the fallback path). -/
theorem claim_C1_counterexample :
    ∃ cfg ∈ AGENTS, cfg.name = "General Assistant" ∧
      (∀ k ∈ cfg.keywords, isSub k (lowerText (chars "xyzzy")) = false) ∧
      countName cfg.name (route_to_agents (chars "xyzzy")) = 1 := by decide

/-- C1 (amended): for every registered agent, a transcript whose lowercased text
contains one of its keywords produces exactly one match for that agent, and the
routing result contains no match for the agent when none of its keywords occurs,
provided at least one agent matched (otherwise the fallback match is returned). -/
theorem claim_C1_route_match_per_agent :
    ∀ (text : List Char) (cfg : AgentConfig), cfg ∈ AGENTS →
      ((∃ k ∈ cfg.keywords, isSub k (lowerText text) = true) →
        countName cfg.name (route_to_agents text) = 1) ∧
      ((∀ k ∈ cfg.keywords, isSub k (lowerText text) = false) →
        collectMatches (lowerText text) ≠ [] →
        countName cfg.name (route_to_agents text) = 0) := by
  intro text cfg hcfg
  constructor
  · intro hex
    have hs : (agentHit cfg (lowerText text)).isSome :=
      (agentHit_isSome_iff cfg (lowerText text)).mpr hex
    have hne : collectMatches (lowerText text) ≠ [] := by
      intro h0
      have hcount := countName_filterMap (lowerText text) AGENTS (by decide) cfg hcfg
      rw [show (AGENTS.filterMap fun x => (agentHit x (lowerText text)).map fun _ => toMatch x) =
        collectMatches (lowerText text) from rfl, h0, if_pos hs] at hcount
      simp [countName] at hcount
    rw [countName_route text cfg hcfg hne, if_pos hs]
  · intro hall hne
    have hnone : agentHit cfg (lowerText text) = none :=
      (agentHit_eq_none_iff cfg (lowerText text)).mpr hall
    rw [countName_route text cfg hcfg hne, hnone]
    simp

/-- Witness for C1: `please check security now` yields exactly one Security Bot
match and no Comms Bot match. -/
theorem claim_C1_witness :
    countName "Security Bot" (route_to_agents (chars "please check security now")) = 1 ∧
    countName "Comms Bot" (route_to_agents (chars "please check security now")) = 0 := by
  constructor
  · exact (claim_C1_route_match_per_agent (chars "please check security now") securityBot
      (by decide)).1 (by decide)
  · exact (claim_C1_route_match_per_agent (chars "please check security now") commsBot
      (by decide)).2 (by decide) (by decide)

/-- C2: the routing result is sorted by priority descending, and any two matched
agents with equal priority appear in registration order (stable sort). -/
theorem claim_C2_route_sorted_stable :
    ∀ text : List Char,
      (route_to_agents text).Pairwise
        (fun a b => b.priority ≤ a.priority ∧
          (a.priority = b.priority → regIndex a.name < regIndex b.name)) := by
  intro text
  unfold route_to_agents
  by_cases h : (sortDesc (collectMatches (lowerText text))).isEmpty = true
  · rw [if_pos h]
    exact List.pairwise_singleton _ _
  · rw [if_neg h]
    exact sortDesc_pairwise _ _ (collectMatches_pairwise_reg (lowerText text))

/-- C3: a transcript in which no keyword of any registered agent occurs routes
to exactly one match, the General Assistant fallback. -/
theorem claim_C3_fallback :
    ∀ text : List Char,
      (∀ cfg ∈ AGENTS, ∀ k ∈ cfg.keywords, isSub k (lowerText text) = false) →
      route_to_agents text = [fallbackMatch] := by
  intro text h
  have hnil : collectMatches (lowerText text) = [] := by
    unfold collectMatches
    rw [List.filterMap_eq_nil_iff]
    intro cfg hcfg
    have hn := (agentHit_eq_none_iff cfg (lowerText text)).mpr (h cfg hcfg)
    simp [hn]
  unfold route_to_agents
  simp only [hnil]
  rfl

/-- Witness for C3: `xyzzy` matches no keyword and routes to the fallback. -/
theorem claim_C3_witness : route_to_agents (chars "xyzzy") = [fallbackMatch] :=
  claim_C3_fallback (chars "xyzzy") (by decide)

/-- C4: the wake gate stays Idle on transcripts containing no wake phrase, opens
a command window on a containment hit, resolves every window back to Idle, and
at the start of every executed loop iteration the gate is Idle again; the
listener's wake test agrees with the containment predicate. -/
theorem claim_C4_wake_gate :
    ∀ (t : List Char) (cycles : List CycleInput) (d : SessionData),
      ((∀ w ∈ wake_words, isSub w (lowerText t) = false) →
        gateObserve WakeState.Idle (some t) = WakeState.Idle) ∧
      ((∃ w ∈ wake_words, isSub w (lowerText t) = true) →
        gateObserve WakeState.Idle (some t) = WakeState.CommandWindow) ∧
      gateObserve WakeState.Idle none = WakeState.Idle ∧
      gateResolve (gateObserve WakeState.Idle (some t)) = WakeState.Idle ∧
      (listen_for_wake_word d (some t)).2 = wakeDetected (some t) ∧
      (∀ s ∈ gateStarts WakeState.Idle cycles, s = WakeState.Idle) := by
  intro t cycles d
  refine ⟨?_, ?_, rfl, rfl, listen_for_wake_word_snd d (some t), gateStarts_Idle cycles⟩
  · intro hall
    have hfalse : wakeDetected (some t) = false := by
      simp only [wakeDetected]
      rw [List.any_eq_false]
      intro w hw
      simp [hall w hw]
    simp [gateObserve, hfalse]
  · intro hex
    have htrue : wakeDetected (some t) = true := by
      simp only [wakeDetected]
      rw [List.any_eq_true]
      obtain ⟨w, hw, hsub⟩ := hex
      exact ⟨w, hw, hsub⟩
    simp [gateObserve, htrue]

/-- Witness for C4: a transcript without a wake phrase keeps the gate Idle; one
containing `hey claude` opens the command window. -/
theorem claim_C4_witness :
    gateObserve WakeState.Idle (some (chars "hello there")) = WakeState.Idle ∧
    gateObserve WakeState.Idle (some (chars "Hey Claude now")) = WakeState.CommandWindow :=
  ⟨(claim_C4_wake_gate (chars "hello there") [] initSession).1 (by decide),
   (claim_C4_wake_gate (chars "Hey Claude now") [] initSession).2.1 (by decide)⟩

/-- C5: after recording K events the in-memory counters equal the fold of the
per-event updates over exactly those K events, and the snapshot persisted during
the k-th record call holds exactly the first k events with their folded
statistics. -/
theorem claim_C5_recorder_replay :
    ∀ es : List SessionEvent,
      (runRecorder initSession es).1.events = es ∧
      (runRecorder initSession es).1.stats = statsOfEvents es ∧
      (runRecorder initSession es).2 =
        (List.range es.length).map
          (fun k => { events := es.take (k+1), stats := statsOfEvents (es.take (k+1)),
                      endTime := false }) := by
  intro es
  rw [runRecorder_eq]
  refine ⟨?_, ?_, ?_⟩
  · rw [foldl_log_event_initSession]
  · rw [foldl_log_event_initSession]
  · have hf : (fun k => (es.take (k+1)).foldl log_event initSession) =
        (fun k => ({ events := es.take (k+1), stats := statsOfEvents (es.take (k+1)),
                     endTime := false } : SessionData)) := by
      funext k
      exact foldl_log_event_initSession (es.take (k+1))
    simp only
    rw [hf]

/-- C6: evaluation of `log_event` at a failing `_save`: the in-memory state is
already mutated and the raw OSError escapes the call — there is no
PersistenceError handling in the source. -/
theorem claim_C6_save_failure :
    ∀ (d : SessionData) (e : SessionEvent),
      log_eventChecked d e false = (log_event d e, some "OSError") := by
  intro d e
  rfl

/-- C7: one failing handler among the matched agents yields an error-carrying
result for that agent only; every agent still yields a result, succeeding agents
keep their success results, and changing the failing agent's outcome does not
alter any sibling's result. -/
theorem claim_C7_dispatch_isolation :
    ∀ (handler handler₂ : AgentMatch → Except String String) (ms : List AgentMatch)
      (a : AgentMatch) (e : String),
      handler a = Except.error e →
      (dispatch handler ms).length = ms.length ∧
      resultOf handler a = { agent := a.name, response := none, error := some e } ∧
      (∀ m ∈ ms, ∀ r, handler m = Except.ok r →
        resultOf handler m = { agent := m.name, response := some r, error := none }) ∧
      ((∀ m, m ≠ a → handler₂ m = handler m) →
        ∀ m ∈ ms, m ≠ a → resultOf handler₂ m = resultOf handler m) := by
  intro handler handler₂ ms a e ha
  refine ⟨by simp [dispatch], ?_, ?_, ?_⟩
  · simp [resultOf, ha]
  · intro m _ r hm
    simp [resultOf, hm]
  · intro hagree m _ hma
    simp [resultOf, hagree m hma]

/-- Witness for C7: with the Security Bot handler failing and the General
Assistant handler succeeding, dispatch yields both results, the error confined
to the Security Bot. -/
theorem claim_C7_witness :
    (dispatch demoHandler [toMatch securityBot, toMatch generalAssistant]).length = 2 ∧
    resultOf demoHandler (toMatch securityBot) =
      { agent := "Security Bot", response := none, error := some "boom" } ∧
    resultOf demoHandler (toMatch generalAssistant) =
      { agent := "General Assistant", response := some "done", error := none } := by
  have h := claim_C7_dispatch_isolation demoHandler demoHandler
    [toMatch securityBot, toMatch generalAssistant] (toMatch securityBot) "boom" rfl
  exact ⟨h.1, h.2.1, h.2.2.1 (toMatch generalAssistant) (by simp) "done" rfl⟩

/-- C8: a stop command recognized inside a command window ends the loop — later
cycle inputs are never consumed — and the session is finalized: `endTime` is
set, the state is persisted once more (snapshot equals the final state), the
summary report is generated, and the stop-cycle trace shows the command event
followed only by the goodbye utterance (the stop response is never spoken or
routed). -/
theorem claim_C8_stop_finalizes :
    ∀ (pre post : List CycleInput) (w cmd : List Char),
      (∀ x ∈ pre, stopsCycle x = false) →
      wakeDetected (some w) = true →
      processCommandResponse cmd = "STOP_LISTENING" →
      (run_continuous (pre ++ { wake := some w, command := some cmd } :: post)).2.2.1 =
          pre ++ [{ wake := some w, command := some cmd }] ∧
      (run_continuous (pre ++ { wake := some w, command := some cmd } :: post)).1.endTime
          = true ∧
      (run_continuous (pre ++ { wake := some w, command := some cmd } :: post)).2.1 =
          (run_continuous (pre ++ { wake := some w, command := some cmd } :: post)).1 ∧
      (run_continuous (pre ++ { wake := some w, command := some cmd } :: post)).2.2.2 =
          generate_report
            (run_continuous (pre ++ { wake := some w, command := some cmd } :: post)).1 ∧
      (run_continuous (pre ++ { wake := some w, command := some cmd } :: post)).1.events =
          (pre.foldl (fun a x => (runCycle a x).1)
            (speak (log_event initSession (SessionEvent.system "listener_started"))
              "Wake word listener active. Say Hey Claude to activate me.")).events ++
          [SessionEvent.stt (lowerText w), SessionEvent.tts (chars "Yes Commander?"),
           SessionEvent.stt cmd, SessionEvent.command cmd "processing",
           SessionEvent.tts (chars "Stopping listener. Goodbye Commander!"),
           SessionEvent.system "listener_stopped"] := by
  intro pre post w cmd hpre hw hc
  have hstop : stopsCycle { wake := some w, command := some cmd } = true := by
    simp [stopsCycle, hw, hc]
  have hsplit := runLoop_stop_split { wake := some w, command := some cmd } post hstop pre
    (speak (log_event initSession (SessionEvent.system "listener_started"))
      "Wake word listener active. Say Hey Claude to activate me.") hpre
  simp only [run_continuous, hsplit, close_session]
  rw [runCycle_stop _ w cmd hw hc]
  refine ⟨trivial, trivial, trivial, trivial, ?_⟩
  simp [log_event, foldl_log_event_events, List.append_assoc]

/-- Witness for C8: one non-stop cycle, then `stop listening`; the third cycle
input is never consumed and the session is finalized. -/
theorem claim_C8_witness :
    (run_continuous [{ wake := none, command := none },
        { wake := some (chars "hey claude"), command := some (chars "stop listening") },
        { wake := some (chars "hey claude"), command := some (chars "status") }]).2.2.1 =
      [{ wake := none, command := none },
       { wake := some (chars "hey claude"), command := some (chars "stop listening") }] ∧
    (run_continuous [{ wake := none, command := none },
        { wake := some (chars "hey claude"), command := some (chars "stop listening") },
        { wake := some (chars "hey claude"), command := some (chars "status") }]).1.endTime
      = true := by
  have h := claim_C8_stop_finalizes [{ wake := none, command := none }]
    [{ wake := some (chars "hey claude"), command := some (chars "status") }]
    (chars "hey claude") (chars "stop listening") (by decide) (by decide) (by decide)
  exact ⟨h.1, h.2.1⟩

/-- C9: a command-window timeout keeps the loop running, the gate returns to
Idle, and the cycle records exactly the wake transcript, the acknowledgement,
one STT error event noting the timeout, and the fallback utterance — no command
event, so nothing is dispatched. -/
theorem claim_C9_timeout_recovery :
    ∀ (d : SessionData) (w : List Char),
      wakeDetected (some w) = true →
      runCycle d { wake := some w, command := none } =
        ([SessionEvent.stt (lowerText w), SessionEvent.tts (chars "Yes Commander?"),
          SessionEvent.error "stt" "Timeout waiting for command",
          SessionEvent.tts (chars "I didn\x27t hear a command. Try again.")].foldl log_event d,
         true) ∧
      (runCycle d { wake := some w, command := none }).1.events =
        d.events ++
          [SessionEvent.stt (lowerText w), SessionEvent.tts (chars "Yes Commander?"),
           SessionEvent.error "stt" "Timeout waiting for command",
           SessionEvent.tts (chars "I didn\x27t hear a command. Try again.")] ∧
      gateCycle WakeState.Idle (some w) = WakeState.Idle := by
  intro d w hw
  refine ⟨runCycle_timeout d w hw, ?_, gateCycle_Idle (some w)⟩
  rw [runCycle_timeout d w hw]
  exact foldl_log_event_events _ d

/-- Witness for C9: a wake hit followed by a command timeout, starting from the
fresh session. -/
theorem claim_C9_witness :
    (runCycle initSession { wake := some (chars "hey claude"), command := none }).2 = true ∧
    (runCycle initSession { wake := some (chars "hey claude"), command := none }).1.events =
      [SessionEvent.stt (chars "hey claude"), SessionEvent.tts (chars "Yes Commander?"),
       SessionEvent.error "stt" "Timeout waiting for command",
       SessionEvent.tts (chars "I didn\x27t hear a command. Try again.")] := by
  have h := claim_C9_timeout_recovery initSession (chars "hey claude") (by decide)
  constructor
  · rw [h.1]
  · rw [h.2.1]
    decide

/-- C10: `process_command` is a first-group-wins matcher over its fixed group
order, and a command containing both an earlier group keyword and a stop word
(`stop the deploy`) gets the earlier group's response and does not stop the
session. -/
theorem claim_C10_first_group_wins :
    ∀ (cmd : List Char) (d : SessionData),
      processCommandResponse cmd = firstGroupResponse cmd ∧
      processCommandResponse (chars "stop the deploy") = deployResponse ∧
      deployResponse ≠ "STOP_LISTENING" ∧
      (runCycle d { wake := some (chars "hey claude"),
                    command := some (chars "stop the deploy") }).2 = true := by
  intro cmd d
  refine ⟨?_, by decide, by decide, ?_⟩
  · cases hE : cmd.isEmpty with
    | true => simp [processCommandResponse, firstGroupResponse, hE]
    | false =>
      simp only [processCommandResponse, firstGroupResponse, hE, Bool.false_eq_true, if_false,
        firstGroupResponseAux, commandGroups, List.any_cons, List.any_nil, Bool.or_false,
        Bool.or_assoc]
  · rw [runCycle_running]
    decide
